import Mathlib

/-!
Verification of `include/yarp/defines.h` from the yarp repository.

The header is pure preprocessor logic: it conditionally defines the macros
`YARP_DEFINES_H` (inclusion guard), `_XOPEN_SOURCE`, `YP_IMPORTED_FUNCTION`,
`YP_EXPORTED_FUNCTION` and `YP_ATTRIBUTE_UNUSED`, depending on the platform
(`_WIN32` defined or not) and on which symbols the including context has
already defined.

We model the macro environment as a partial map from macro names to their
replacement text, and processing the header as a pure function on
environments that transcribes the `#ifndef` / `#define` / `#if defined`
structure of the file line by line.  A `#define` of a name that is already
defined is additionally recorded as a redefinition event, so that claims
about redefinition conflicts can be stated.
-/

/-- A macro environment: maps a macro name to its replacement text when the
macro is defined, `none` when it is undefined. -/
def Env : Type := String → Option String

/-- Whether macro `name` is defined in `env` (the test performed by
`#ifdef` / `#ifndef` / `defined(...)`). -/
def Env.defines (env : Env) (name : String) : Bool :=
  (env name).isSome

/-- The effect of `#define name body` on the environment. -/
def Env.define (env : Env) (name body : String) : Env :=
  fun n => if n = name then some body else env n

/-- State threaded through processing: the current macro environment plus the
list of names for which a `#define` was executed while the name was already
defined (redefinition events, in order of occurrence). -/
structure PState where
  env : Env
  redefs : List String

/-- Execute `#define name body` in state `s`, recording a redefinition event
when `name` was already defined. -/
def PState.defineM (s : PState) (name body : String) : PState :=
  { env := s.env.define name body
    redefs := if s.env.defines name then s.redefs ++ [name] else s.redefs }

/-- Execute the block `#ifndef name / #define name body / #endif`. -/
def PState.defineIfUndef (s : PState) (name body : String) : PState :=
  if s.env.defines name then s else s.defineM name body

/-- Replacement text of `YP_IMPORTED_FUNCTION` on the Windows branch
(defines.h line 14). -/
def impWin : String := "__declspec(dllimport)"

/-- Replacement text of `YP_IMPORTED_FUNCTION` on the non-Windows branch
(defines.h line 16). -/
def impPosix : String := "__attribute__((__visibility__(\"default\")))"

/-- Replacement text of `YP_EXPORTED_FUNCTION` on the Windows branch
(defines.h line 22). -/
def expWin : String := "__declspec(dllexport)"

/-- Replacement text of `YP_EXPORTED_FUNCTION` on the non-Windows branch
(defines.h line 24). -/
def expPosix : String := "__attribute__((__visibility__(\"default\")))"

/-- Replacement text of `YP_ATTRIBUTE_UNUSED` on the non-Windows branch
(defines.h line 31); on the Windows branch (line 29) it is empty. -/
def unusedPosix : String := "__attribute__((unused))"

/-- Processing the whole of defines.h once, starting in state `s`: a direct
transcription of the directive structure of the file.

* lines 4-5: inclusion guard `#ifndef YARP_DEFINES_H` + `#define YARP_DEFINES_H`;
* lines 8-10: `#ifndef _XOPEN_SOURCE` then `#define _XOPEN_SOURCE 700`;
* lines 12-18: `#ifndef YP_IMPORTED_FUNCTION`, inside which `#if defined(_WIN32)`
  selects the dllimport or default-visibility body;
* lines 20-26: likewise for `YP_EXPORTED_FUNCTION` with dllexport;
* lines 28-32: `#if defined(_WIN32)` selecting the empty or
  `__attribute__((unused))` body for `YP_ATTRIBUTE_UNUSED` — note there is
  no `#ifndef YP_ATTRIBUTE_UNUSED` around this block in the source. -/
def processHeaderM (s : PState) : PState :=
  if s.env.defines "YARP_DEFINES_H" then s
  else
    let s1 := s.defineM "YARP_DEFINES_H" ""
    let s2 := s1.defineIfUndef "_XOPEN_SOURCE" "700"
    let s3 := s2.defineIfUndef "YP_IMPORTED_FUNCTION"
      (if s2.env.defines "_WIN32" then impWin else impPosix)
    let s4 := s3.defineIfUndef "YP_EXPORTED_FUNCTION"
      (if s3.env.defines "_WIN32" then expWin else expPosix)
    s4.defineM "YP_ATTRIBUTE_UNUSED"
      (if s4.env.defines "_WIN32" then "" else unusedPosix)

/-- The macro environment after processing the header once. -/
def processHeader (env : Env) : Env :=
  (processHeaderM ⟨env, []⟩).env

/-- The redefinition events produced by processing the header once. -/
def headerRedefs (env : Env) : List String :=
  (processHeaderM ⟨env, []⟩).redefs

/-- The environment in which no macro at all is defined. -/
def emptyEnv : Env := fun _ => none

/-- The empty environment with only `_WIN32` defined (the Windows branch). -/
def winEnv : Env := emptyEnv.define "_WIN32" "1"

/-- Claim C4: on the non-Windows branch with no symbols predefined, after one
processing of the header `_XOPEN_SOURCE` is `700`, `YP_IMPORTED_FUNCTION` and
`YP_EXPORTED_FUNCTION` both expand to the default-visibility attribute, and
`YP_ATTRIBUTE_UNUSED` expands to `__attribute__((unused))`. -/
theorem C4_posix_defaults :
    processHeader emptyEnv "_XOPEN_SOURCE" = some "700" ∧
    processHeader emptyEnv "YP_IMPORTED_FUNCTION" =
      some "__attribute__((__visibility__(\"default\")))" ∧
    processHeader emptyEnv "YP_EXPORTED_FUNCTION" =
      some "__attribute__((__visibility__(\"default\")))" ∧
    processHeader emptyEnv "YP_ATTRIBUTE_UNUSED" =
      some "__attribute__((unused))" := by
  refine ⟨?_, ?_, ?_, ?_⟩ <;> rfl

/-- Claim C5: on the Windows branch with no symbols predefined, after one
processing of the header `YP_IMPORTED_FUNCTION` expands to
`__declspec(dllimport)`, `YP_EXPORTED_FUNCTION` expands to
`__declspec(dllexport)`, and `YP_ATTRIBUTE_UNUSED` expands to the empty token
sequence. -/
theorem C5_windows_defaults :
    processHeader winEnv "YP_IMPORTED_FUNCTION" = some "__declspec(dllimport)" ∧
    processHeader winEnv "YP_EXPORTED_FUNCTION" = some "__declspec(dllexport)" ∧
    processHeader winEnv "YP_ATTRIBUTE_UNUSED" = some "" := by
  refine ⟨?_, ?_, ?_⟩ <;> rfl


theorem PState.defineM_env_lookup (s : PState) (name body n : String) :
    (s.defineM name body).env n = if n = name then some body else s.env n := rfl

theorem PState.defineM_redefs (s : PState) (name body : String) :
    (s.defineM name body).redefs =
      if s.env.defines name then s.redefs ++ [name] else s.redefs := rfl

theorem PState.defineIfUndef_env_lookup (s : PState) (name body n : String) :
    (s.defineIfUndef name body).env n =
      if n = name then (if s.env.defines name then s.env name else some body)
      else s.env n := by
  unfold PState.defineIfUndef
  split_ifs with h1 h2 <;> simp_all [PState.defineM, Env.define]

theorem PState.defineIfUndef_redefs (s : PState) (name body : String) :
    (s.defineIfUndef name body).redefs = s.redefs := by
  unfold PState.defineIfUndef PState.defineM
  split_ifs with h <;> simp_all

theorem processHeader_guard (env : Env) :
    processHeader env "YARP_DEFINES_H" =
      if env.defines "YARP_DEFINES_H" then env "YARP_DEFINES_H" else some "" := by
  simp only [processHeader, processHeaderM, Env.defines]
  split_ifs with hg <;>
    simp_all [PState.defineIfUndef_env_lookup, PState.defineM_env_lookup, Env.defines]

theorem processHeader_xopen (env : Env) :
    processHeader env "_XOPEN_SOURCE" =
      if env.defines "YARP_DEFINES_H" then env "_XOPEN_SOURCE"
      else if env.defines "_XOPEN_SOURCE" then env "_XOPEN_SOURCE"
      else some "700" := by
  simp only [processHeader, processHeaderM, Env.defines]
  split_ifs with hg <;>
    simp_all [PState.defineIfUndef_env_lookup, PState.defineM_env_lookup, Env.defines]

theorem processHeader_imported (env : Env) :
    processHeader env "YP_IMPORTED_FUNCTION" =
      if env.defines "YARP_DEFINES_H" then env "YP_IMPORTED_FUNCTION"
      else if env.defines "YP_IMPORTED_FUNCTION" then env "YP_IMPORTED_FUNCTION"
      else if env.defines "_WIN32" then some impWin
      else some impPosix := by
  simp only [processHeader, processHeaderM, Env.defines]
  split_ifs with hg <;>
    simp_all [PState.defineIfUndef_env_lookup, PState.defineM_env_lookup, Env.defines]

theorem processHeader_exported (env : Env) :
    processHeader env "YP_EXPORTED_FUNCTION" =
      if env.defines "YARP_DEFINES_H" then env "YP_EXPORTED_FUNCTION"
      else if env.defines "YP_EXPORTED_FUNCTION" then env "YP_EXPORTED_FUNCTION"
      else if env.defines "_WIN32" then some expWin
      else some expPosix := by
  simp only [processHeader, processHeaderM, Env.defines]
  split_ifs with hg <;>
    simp_all [PState.defineIfUndef_env_lookup, PState.defineM_env_lookup, Env.defines]

theorem processHeader_unused (env : Env) :
    processHeader env "YP_ATTRIBUTE_UNUSED" =
      if env.defines "YARP_DEFINES_H" then env "YP_ATTRIBUTE_UNUSED"
      else if env.defines "_WIN32" then some ""
      else some unusedPosix := by
  simp only [processHeader, processHeaderM, Env.defines]
  split_ifs with hg <;>
    simp_all [PState.defineIfUndef_env_lookup, PState.defineM_env_lookup, Env.defines]

theorem processHeader_other (env : Env) (n : String)
    (h1 : n ≠ "YARP_DEFINES_H") (h2 : n ≠ "_XOPEN_SOURCE")
    (h3 : n ≠ "YP_IMPORTED_FUNCTION") (h4 : n ≠ "YP_EXPORTED_FUNCTION")
    (h5 : n ≠ "YP_ATTRIBUTE_UNUSED") :
    processHeader env n = env n := by
  simp only [processHeader, processHeaderM, Env.defines]
  split_ifs with hg <;>
    simp_all [PState.defineIfUndef_env_lookup, PState.defineM_env_lookup, Env.defines]

theorem headerRedefs_eval (env : Env) :
    headerRedefs env =
      if env.defines "YARP_DEFINES_H" then []
      else if env.defines "YP_ATTRIBUTE_UNUSED" then ["YP_ATTRIBUTE_UNUSED"]
      else [] := by
  simp only [headerRedefs, processHeaderM, Env.defines]
  split_ifs with hg <;>
    simp_all [PState.defineIfUndef_redefs, PState.defineM_redefs,
      PState.defineIfUndef_env_lookup, PState.defineM_env_lookup, Env.defines]

/-- Environment with only `YP_ATTRIBUTE_UNUSED` predefined (to a caller value). -/
def envUnusedPre : Env := emptyEnv.define "YP_ATTRIBUTE_UNUSED" "custom"

/-- Environment with only `_XOPEN_SOURCE` predefined, to `600`. -/
def envXopen600 : Env := emptyEnv.define "_XOPEN_SOURCE" "600"

/-- Environment with only the inclusion guard `YARP_DEFINES_H` predefined. -/
def envGuardPre : Env := emptyEnv.define "YARP_DEFINES_H" ""

/-- Claim C1 is false as stated: `YP_ATTRIBUTE_UNUSED` is one of the four
symbols, yet when it is predefined (here to `custom`, non-Windows branch,
guard not predefined) processing the header does not leave its definition
unchanged — lines 28-32 of defines.h carry no `#ifndef`. -/
theorem C1_counterexample :
    envUnusedPre.defines "YP_ATTRIBUTE_UNUSED" = true ∧
    processHeader envUnusedPre "YP_ATTRIBUTE_UNUSED" ≠
      envUnusedPre "YP_ATTRIBUTE_UNUSED" := by
  decide

/-- Claim C1, amended: for the three guarded symbols `_XOPEN_SOURCE`,
`YP_IMPORTED_FUNCTION` and `YP_EXPORTED_FUNCTION`, a predefined definition is
left unchanged by processing the header, in every initial environment and on
both platform branches; `YP_ATTRIBUTE_UNUSED` does not enjoy this property. -/
theorem C1_guarded_symbols_keep_predefined (env : Env) (s : String)
    (hs : s = "_XOPEN_SOURCE" ∨ s = "YP_IMPORTED_FUNCTION" ∨
      s = "YP_EXPORTED_FUNCTION")
    (hdef : env.defines s = true) :
    processHeader env s = env s := by
  rcases hs with h | h | h <;> subst h
  · rw [processHeader_xopen]; simp [hdef]
  · rw [processHeader_imported]; simp [hdef]
  · rw [processHeader_exported]; simp [hdef]

/-- Witness for `C1_guarded_symbols_keep_predefined` at a concrete input. -/
theorem C1_guarded_symbols_keep_predefined_witness :
    envXopen600.defines "_XOPEN_SOURCE" = true ∧
    processHeader envXopen600 "_XOPEN_SOURCE" = envXopen600 "_XOPEN_SOURCE" :=
  ⟨by decide,
    C1_guarded_symbols_keep_predefined envXopen600 "_XOPEN_SOURCE"
      (Or.inl rfl) (by decide)⟩

/-- Claim C2 is false as stated: in an environment where `YP_ATTRIBUTE_UNUSED`
is predefined and the guard is not, processing the header executes a
`#define` of the already-defined name `YP_ATTRIBUTE_UNUSED` — a redefinition
conflict the header does not guard against. -/
theorem C2_counterexample :
    envUnusedPre.defines "YP_ATTRIBUTE_UNUSED" = true ∧
    headerRedefs envUnusedPre = ["YP_ATTRIBUTE_UNUSED"] := by
  decide

/-- Claim C2, amended: the header checks the definition state before defining
`YARP_DEFINES_H`, `_XOPEN_SOURCE`, `YP_IMPORTED_FUNCTION` and
`YP_EXPORTED_FUNCTION`, so the only name it can ever redefine — in any
initial environment, on either platform branch — is `YP_ATTRIBUTE_UNUSED`. -/
theorem C2_only_unused_redefinable (env : Env) (n : String)
    (h : n ∈ headerRedefs env) :
    n = "YP_ATTRIBUTE_UNUSED" := by
  rw [headerRedefs_eval] at h
  split_ifs at h <;> simp_all

/-- Witness for `C2_only_unused_redefinable` at a concrete input. -/
theorem C2_only_unused_redefinable_witness :
    "YP_ATTRIBUTE_UNUSED" ∈ headerRedefs envUnusedPre ∧
    ("YP_ATTRIBUTE_UNUSED" : String) = "YP_ATTRIBUTE_UNUSED" :=
  ⟨by decide,
    C2_only_unused_redefinable envUnusedPre "YP_ATTRIBUTE_UNUSED" (by decide)⟩

/-- A processing pass whose starting environment already defines the guard is
the identity on the whole state. -/
theorem processHeaderM_guarded (s : PState)
    (h : s.env.defines "YARP_DEFINES_H" = true) :
    processHeaderM s = s := by
  unfold processHeaderM
  simp [h]

/-- After one processing pass the guard `YARP_DEFINES_H` is always defined. -/
theorem guard_defined_after (env : Env) :
    (processHeader env).defines "YARP_DEFINES_H" = true := by
  show (processHeader env "YARP_DEFINES_H").isSome = true
  rw [processHeader_guard]
  split_ifs with h
  · exact h
  · rfl

/-- Claim C3: processing the header twice is the same as processing it once —
the second pass changes nothing (so all four symbols keep the values of the
single pass, in every initial environment and on both platform branches) and
the second pass performs no redefinition at all. -/
theorem C3_idempotent (env : Env) :
    processHeader (processHeader env) = processHeader env ∧
    headerRedefs (processHeader env) = [] := by
  have h : processHeaderM ⟨processHeader env, []⟩ = ⟨processHeader env, []⟩ :=
    processHeaderM_guarded ⟨processHeader env, []⟩ (guard_defined_after env)
  constructor
  · show (processHeaderM ⟨processHeader env, []⟩).env = processHeader env
    rw [h]
  · show (processHeaderM ⟨processHeader env, []⟩).redefs = []
    rw [h]

/-- Claim C6 is false as stated: with `_XOPEN_SOURCE` predefined to `600`,
after one processing of the header the symbol does not hold `700` — the
`#ifndef` on lines 8-10 keeps the caller's value. -/
theorem C6_counterexample :
    processHeader envXopen600 "_XOPEN_SOURCE" = some "600" ∧
    processHeader envXopen600 "_XOPEN_SOURCE" ≠ some "700" := by
  decide

/-- Claim C6, amended: in every environment where the inclusion guard is not
predefined, after one processing `_XOPEN_SOURCE` is defined — with `700` when
it was not predefined, and with its caller-supplied value otherwise. -/
theorem C6_xopen_defined (env : Env)
    (hg : env.defines "YARP_DEFINES_H" = false) :
    processHeader env "_XOPEN_SOURCE" =
      (if env.defines "_XOPEN_SOURCE" then env "_XOPEN_SOURCE"
       else some "700") := by
  rw [processHeader_xopen]
  simp [hg]

/-- Witness for `C6_xopen_defined` at a concrete input. -/
theorem C6_xopen_defined_witness :
    emptyEnv.defines "YARP_DEFINES_H" = false ∧
    processHeader emptyEnv "_XOPEN_SOURCE" =
      (if emptyEnv.defines "_XOPEN_SOURCE" then emptyEnv "_XOPEN_SOURCE"
       else some "700") :=
  ⟨by decide, C6_xopen_defined emptyEnv (by decide)⟩

/-- Claim C7 is false as stated: in an environment where the inclusion guard
`YARP_DEFINES_H` is predefined, processing the header leaves `_XOPEN_SOURCE`
(and the other three symbols) undefined, so not every initial environment
ends with all four symbols defined. -/
theorem C7_counterexample :
    envGuardPre "_XOPEN_SOURCE" = none ∧
    processHeader envGuardPre "_XOPEN_SOURCE" = none := by
  decide

/-- Claim C7, amended: in every initial environment in which the inclusion
guard is not predefined, and on both platform branches, after processing each
of the four symbols is defined — with the caller's predefined value or with
the platform-appropriate value the header supplies. -/
theorem C7_all_defined (env : Env)
    (hg : env.defines "YARP_DEFINES_H" = false) :
    ((processHeader env "_XOPEN_SOURCE").isSome = true ∧
      (processHeader env "_XOPEN_SOURCE" = env "_XOPEN_SOURCE" ∨
        processHeader env "_XOPEN_SOURCE" = some "700")) ∧
    ((processHeader env "YP_IMPORTED_FUNCTION").isSome = true ∧
      (processHeader env "YP_IMPORTED_FUNCTION" = env "YP_IMPORTED_FUNCTION" ∨
        processHeader env "YP_IMPORTED_FUNCTION" =
          (if env.defines "_WIN32" then some impWin else some impPosix))) ∧
    ((processHeader env "YP_EXPORTED_FUNCTION").isSome = true ∧
      (processHeader env "YP_EXPORTED_FUNCTION" = env "YP_EXPORTED_FUNCTION" ∨
        processHeader env "YP_EXPORTED_FUNCTION" =
          (if env.defines "_WIN32" then some expWin else some expPosix))) ∧
    ((processHeader env "YP_ATTRIBUTE_UNUSED").isSome = true ∧
      (processHeader env "YP_ATTRIBUTE_UNUSED" = env "YP_ATTRIBUTE_UNUSED" ∨
        processHeader env "YP_ATTRIBUTE_UNUSED" =
          (if env.defines "_WIN32" then some "" else some unusedPosix))) := by
  rw [processHeader_xopen, processHeader_imported, processHeader_exported,
    processHeader_unused]
  by_cases hx : env.defines "_XOPEN_SOURCE" = true <;>
  by_cases hi : env.defines "YP_IMPORTED_FUNCTION" = true <;>
  by_cases he : env.defines "YP_EXPORTED_FUNCTION" = true <;>
  by_cases hw : env.defines "_WIN32" = true <;>
  simp_all [Env.defines]

/-- Witness for `C7_all_defined` at a concrete input. -/
theorem C7_all_defined_witness :
    emptyEnv.defines "YARP_DEFINES_H" = false ∧
    (processHeader emptyEnv "_XOPEN_SOURCE").isSome = true :=
  ⟨by decide, (C7_all_defined emptyEnv (by decide)).1.1⟩

/-- Claim C8 is false as stated: the two environments below agree on the
definedness of `_WIN32` and on the (pre)definitions of all four symbols
(none predefined in either), yet processing yields different final
definitions for `_XOPEN_SOURCE`, because the second environment predefines
the inclusion guard `YARP_DEFINES_H`, whose definedness also influences the
result. -/
theorem C8_counterexample :
    emptyEnv.defines "_WIN32" = envGuardPre.defines "_WIN32" ∧
    emptyEnv "_XOPEN_SOURCE" = envGuardPre "_XOPEN_SOURCE" ∧
    emptyEnv "YP_IMPORTED_FUNCTION" = envGuardPre "YP_IMPORTED_FUNCTION" ∧
    emptyEnv "YP_EXPORTED_FUNCTION" = envGuardPre "YP_EXPORTED_FUNCTION" ∧
    emptyEnv "YP_ATTRIBUTE_UNUSED" = envGuardPre "YP_ATTRIBUTE_UNUSED" ∧
    processHeader emptyEnv "_XOPEN_SOURCE" ≠
      processHeader envGuardPre "_XOPEN_SOURCE" := by
  decide

/-- Claim C8, amended: the final definitions of the four symbols are
determined solely by the definedness of `_WIN32`, the definedness of the
inclusion guard `YARP_DEFINES_H`, and the predefinitions of the four symbols
themselves; no other macro of the environment influences the result. -/
theorem C8_determined (e1 e2 : Env)
    (hwin : e1.defines "_WIN32" = e2.defines "_WIN32")
    (hguard : e1.defines "YARP_DEFINES_H" = e2.defines "YARP_DEFINES_H")
    (hx : e1 "_XOPEN_SOURCE" = e2 "_XOPEN_SOURCE")
    (hi : e1 "YP_IMPORTED_FUNCTION" = e2 "YP_IMPORTED_FUNCTION")
    (he : e1 "YP_EXPORTED_FUNCTION" = e2 "YP_EXPORTED_FUNCTION")
    (hu : e1 "YP_ATTRIBUTE_UNUSED" = e2 "YP_ATTRIBUTE_UNUSED") :
    processHeader e1 "_XOPEN_SOURCE" = processHeader e2 "_XOPEN_SOURCE" ∧
    processHeader e1 "YP_IMPORTED_FUNCTION" =
      processHeader e2 "YP_IMPORTED_FUNCTION" ∧
    processHeader e1 "YP_EXPORTED_FUNCTION" =
      processHeader e2 "YP_EXPORTED_FUNCTION" ∧
    processHeader e1 "YP_ATTRIBUTE_UNUSED" =
      processHeader e2 "YP_ATTRIBUTE_UNUSED" := by
  have hx' : e1.defines "_XOPEN_SOURCE" = e2.defines "_XOPEN_SOURCE" := by
    unfold Env.defines
    rw [hx]
  have hi' : e1.defines "YP_IMPORTED_FUNCTION" =
      e2.defines "YP_IMPORTED_FUNCTION" := by
    unfold Env.defines
    rw [hi]
  have he' : e1.defines "YP_EXPORTED_FUNCTION" =
      e2.defines "YP_EXPORTED_FUNCTION" := by
    unfold Env.defines
    rw [he]
  rw [processHeader_xopen e1, processHeader_xopen e2,
    processHeader_imported e1, processHeader_imported e2,
    processHeader_exported e1, processHeader_exported e2,
    processHeader_unused e1, processHeader_unused e2]
  simp only [hwin, hguard, hx', hi', he', hx, hi, he, hu]
  exact ⟨trivial, trivial, trivial, trivial⟩

/-- The empty environment with one unrelated macro defined. -/
def envLinux : Env := emptyEnv.define "__linux__" "1"

/-- Witness for `C8_determined` at a concrete pair of inputs. -/
theorem C8_determined_witness :
    emptyEnv.defines "_WIN32" = envLinux.defines "_WIN32" ∧
    processHeader emptyEnv "YP_IMPORTED_FUNCTION" =
      processHeader envLinux "YP_IMPORTED_FUNCTION" :=
  ⟨by decide,
    (C8_determined emptyEnv envLinux (by decide) (by decide) (by decide)
      (by decide) (by decide) (by decide)).2.1⟩

/-- Claim C9: when the inclusion guard `YARP_DEFINES_H` is predefined,
processing the header leaves the entire macro environment unchanged — no
symbol is defined or modified. -/
theorem C9_guard_frame (env : Env)
    (h : env.defines "YARP_DEFINES_H" = true) :
    processHeader env = env := by
  show (processHeaderM ⟨env, []⟩).env = env
  rw [processHeaderM_guarded ⟨env, []⟩ h]

/-- Witness for `C9_guard_frame` at a concrete input. -/
theorem C9_guard_frame_witness :
    envGuardPre.defines "YARP_DEFINES_H" = true ∧
    processHeader envGuardPre = envGuardPre :=
  ⟨by decide, C9_guard_frame envGuardPre (by decide)⟩

/-- Claim C10: in every initial environment and on both platform branches,
processing the header touches no macro outside the five names
`YARP_DEFINES_H`, `_XOPEN_SOURCE`, `YP_IMPORTED_FUNCTION`,
`YP_EXPORTED_FUNCTION`, `YP_ATTRIBUTE_UNUSED`: every other entry of the
environment is unchanged. -/
theorem C10_frame (env : Env) (n : String)
    (h1 : n ≠ "YARP_DEFINES_H") (h2 : n ≠ "_XOPEN_SOURCE")
    (h3 : n ≠ "YP_IMPORTED_FUNCTION") (h4 : n ≠ "YP_EXPORTED_FUNCTION")
    (h5 : n ≠ "YP_ATTRIBUTE_UNUSED") :
    processHeader env n = env n := by
  rw [processHeader_other env n h1 h2 h3 h4 h5]

/-- The empty environment with one caller macro `FOO` defined. -/
def envFoo : Env := emptyEnv.define "FOO" "bar"

/-- Witness for `C10_frame` at a concrete input. -/
theorem C10_frame_witness :
    ("FOO" : String) ≠ "YARP_DEFINES_H" ∧
    processHeader envFoo "FOO" = envFoo "FOO" :=
  ⟨by decide,
    C10_frame envFoo "FOO" (by decide) (by decide) (by decide) (by decide)
      (by decide)⟩
